import Mathlib

/-!
# Verification of the SleepWise client (frontend/src)

A shallow embedding of the SleepWise frontend's API client
(`src/lib/apiClient.ts`, embedded in `pages/DailyLog.tsx`), the
daily-log form validation (`sleepLogSchema` / `handleSubmit` in
`pages/DailyLog.tsx`), and the dashboard aggregation
(`fetchDashboardData` in `pages/Dashboard.tsx`), together with
theorems settling the specification's claims about them.

Numbers are modelled as `ℚ` (the validation and aggregation code only
compares and copies numbers, never performs float-specific
arithmetic), JavaScript `NaN` results of `parseInt`/`parseFloat` as
`Option.none`, and JSON objects as association lists in key order.
-/

namespace SleepWise

/-- A scalar JSON value, as it appears as a field of a request or
response object (`null`, boolean, number, string). -/
inductive JVal where
  | jnull
  | jbool (b : Bool)
  | jnum (q : ℚ)
  | jstr (s : String)
deriving DecidableEq, Repr

/-- JavaScript truthiness of a `JVal`, used by `errorData.detail || '…'`:
`null`, `false`, `0` and `""` are falsy. -/
def JVal.truthy : JVal → Bool
  | .jnull => false
  | .jbool b => b
  | .jnum q => q ≠ 0
  | .jstr s => s ≠ ""

/-- The string a `JVal` contributes as an `Error` message
(`new Error(v)` stringifies its argument). Claims only exercise the
string case. -/
def JVal.asMessage : JVal → String
  | .jnull => "null"
  | .jbool b => toString b
  | .jnum q => toString q
  | .jstr s => s

/-- A parsed JSON response body, abstracted to the operations the
client performs on it: property access (`errorData.detail`) on an
object, which on a non-object non-null value yields `undefined` and on
`null` throws a `TypeError`. -/
inductive JBody where
  | obj (fields : List (String × JVal))
  | jnull
  | nonObjectNonNull
deriving DecidableEq, Repr

/-- `obj.k`: property lookup on a JSON object (first binding wins, as
in a parsed JSON object the last duplicate key wins and our lists carry
the already-deduplicated key order). -/
def JBody.lookup (fields : List (String × JVal)) (k : String) : Option JVal :=
  (fields.find? (fun kv => kv.1 = k)).map (fun kv => kv.2)

/-- JavaScript object assignment `o[k] = v` on an association list:
an existing key keeps its position and gets the new value, a fresh key
is appended. Used both for the `{ ...body, token }` spread-and-set in
`apiClient.post` and for building the field-error map in
`handleSubmit`. -/
def assocSet : List (String × JVal) → String → JVal → List (String × JVal)
  | [], k, v => [(k, v)]
  | (k', v') :: rest, k, v =>
    if k' = k then (k, v) :: rest else (k', v') :: assocSet rest k v

/-- An HTTP request as issued by `fetch` in `apiClient.ts`: method,
endpoint (path appended to the base URL), query-string entries in
append order, and the JSON body for POST (`none` for GET). -/
structure Request where
  method : String
  endpoint : String
  query : List (String × String)
  body : Option (List (String × JVal))
deriving DecidableEq, Repr

/-- The network's answer to a request: the HTTP success flag
(`response.ok`) and the body as parsed by `response.json()` —
`none` when the body is not valid JSON, in which case `response.json()`
rejects. -/
structure HttpResponse where
  ok : Bool
  jsonBody : Option JBody
deriving DecidableEq, Repr

/-- The errors a call to `apiClient.post`/`apiClient.get` can reject
with, as the caller observes them:
* `apiError msg` — `new Error(errorData.detail || 'API request failed')`;
* `parseError` — the `SyntaxError` from `response.json()` on a body
  that is not valid JSON, propagated unhandled;
* `typeError` — property access `errorData.detail` on a `null` body;
* `authError msg` — `new Error("Authentication token not found.")`. -/
inductive ClientError where
  | apiError (msg : String)
  | parseError
  | typeError
  | authError (msg : String)
deriving DecidableEq, Repr

/-- The fixed generic message of `apiClient`'s error path. -/
def genericApiMessage : String := "API request failed"

/-- `errorData.detail || 'API request failed'` evaluated on a parsed
non-2xx body, then thrown: on an object, the `detail` value if truthy,
otherwise the generic message; on a non-object the access yields
`undefined` (falsy), hence the generic message; on `null` the access
itself throws a `TypeError`. -/
def errorOutcome : JBody → ClientError
  | .obj fields =>
    .apiError (match JBody.lookup fields "detail" with
      | some v => if v.truthy then v.asMessage else genericApiMessage
      | none => genericApiMessage)
  | .jnull => .typeError
  | .nonObjectNonNull => .apiError genericApiMessage

/-- Shared response handling of `apiClient.post` and `apiClient.get`:
`response.json()` is awaited in both branches (so an unparseable body
rejects either way); on `response.ok` the parsed body is returned,
otherwise `new Error(errorData.detail || 'API request failed')` is
thrown. -/
def handleResponse (resp : HttpResponse) : Except ClientError JBody :=
  match resp.jsonBody with
  | none => .error .parseError
  | some b => if resp.ok then .ok b else .error (errorOutcome b)

/-- The `token` property value embedded by `{ ...body, token }`:
the session's access token, or JSON `null` when `getAuthToken()`
returned `null`. -/
def tokenJVal : Option String → JVal
  | some t => .jstr t
  | none => .jnull

/-- The POST request built by `apiClient.post(endpoint, body)`:
`fetch` with method POST, no query string, and body
`JSON.stringify({ ...body, token })`. -/
def postRequest (endpoint : String) (body : List (String × JVal))
    (token : Option String) : Request :=
  { method := "POST", endpoint := endpoint, query := [],
    body := some (assocSet body "token" (tokenJVal token)) }

/-- The GET request built by `apiClient.get(endpoint, params)` once a
token is present: the token is appended as the first query parameter,
then every supplied param in order (values already passed through
`String(value)`). No body. -/
def getRequest (endpoint : String) (params : List (String × String))
    (t : String) : Request :=
  { method := "GET", endpoint := endpoint,
    query := ("token", t) :: params, body := none }

/-- `apiClient.post(endpoint, body)` given the current session token
and the network behaviour `net`: returns the list of requests actually
issued to the network and the settled outcome. `post` never checks the
token — the request always goes out, with `token: null` in the body if
the session has none. -/
def apiClient.post (endpoint : String) (body : List (String × JVal))
    (token : Option String) (net : Request → HttpResponse) :
    List Request × Except ClientError JBody :=
  let req := postRequest endpoint body token
  ([req], handleResponse (net req))

/-- `apiClient.get(endpoint, params)` given the current session token
and the network behaviour `net`: with no token it throws
`new Error("Authentication token not found.")` before any `fetch`;
otherwise it issues the GET request and handles the response. -/
def apiClient.get (endpoint : String) (params : List (String × String))
    (token : Option String) (net : Request → HttpResponse) :
    List Request × Except ClientError JBody :=
  match token with
  | none => ([], .error (.authError "Authentication token not found."))
  | some t =>
    let req := getRequest endpoint params t
    ([req], handleResponse (net req))

/-- Property lookup after `o["token"] = v` finds `v`. -/
theorem lookup_assocSet_self (l : List (String × JVal)) (k : String) (v : JVal) :
    JBody.lookup (assocSet l k v) k = some v := by
  induction l with
  | nil => simp [assocSet, JBody.lookup, List.find?]
  | cons kv rest ih =>
    by_cases h : kv.1 = k
    · simp [assocSet, h, JBody.lookup, List.find?]
    · cases kv with
      | mk k' v' =>
        simp only at h
        simp only [assocSet, if_neg h]
        simpa [JBody.lookup, List.find?, h] using ih

/-- Property lookup at a key other than the assigned one is unchanged
by the assignment. -/
theorem lookup_assocSet_ne (l : List (String × JVal)) (k k' : String) (v : JVal)
    (h : k' ≠ k) : JBody.lookup (assocSet l k v) k' = JBody.lookup l k' := by
  induction l with
  | nil => simp [assocSet, JBody.lookup, List.find?, Ne.symm h]
  | cons kv rest ih =>
    cases kv with
    | mk k₀ v₀ =>
      by_cases h₀ : k₀ = k
      · subst h₀
        simp [assocSet, JBody.lookup, List.find?, Ne.symm h]
      · by_cases h₁ : k₀ = k'
        · subst h₁
          simp [assocSet, if_neg h₀, JBody.lookup, List.find?]
        · simp only [assocSet, if_neg h₀]
          simpa [JBody.lookup, List.find?, h₁] using ih

/-- `handleResponse` never produces the missing-credential error: that
error exists only on `apiClient.get`'s pre-network fast path. -/
theorem handleResponse_ne_authError (resp : HttpResponse) (m : String) :
    handleResponse resp ≠ .error (.authError m) := by
  unfold handleResponse
  cases resp.jsonBody with
  | none => simp
  | some b =>
    cases hok : resp.ok <;> cases b <;> simp_all [errorOutcome]

/-- C1: with no session token, `apiClient.get` throws the
missing-credential error and issues no network request at all. -/
theorem get_without_token_fails_fast (endpoint : String)
    (params : List (String × String)) (net : Request → HttpResponse) :
    apiClient.get endpoint params none net
      = ([], .error (.authError "Authentication token not found.")) := by
  rfl

/-- C3: `apiClient.post` sends the credential only inside the JSON body
(the `token` field merged into the payload, other payload fields
preserved, empty query string), while `apiClient.get` sends it only as
the leading `token` query parameter followed by all supplied params,
with no body. -/
theorem credential_transport_asymmetry (epPost epGet : String)
    (body : List (String × JVal)) (params : List (String × String))
    (tok : Option String) (t : String) (net : Request → HttpResponse)
    (k : String) (hk : k ≠ "token") :
    (apiClient.post epPost body tok net).1 = [postRequest epPost body tok]
    ∧ (postRequest epPost body tok).query = []
    ∧ (postRequest epPost body tok).body
        = some (assocSet body "token" (tokenJVal tok))
    ∧ JBody.lookup (assocSet body "token" (tokenJVal tok)) "token"
        = some (tokenJVal tok)
    ∧ JBody.lookup (assocSet body "token" (tokenJVal tok)) k = JBody.lookup body k
    ∧ (apiClient.get epGet params (some t) net).1 = [getRequest epGet params t]
    ∧ (getRequest epGet params t).query = ("token", t) :: params
    ∧ (getRequest epGet params t).body = none := by
  refine ⟨rfl, rfl, rfl, lookup_assocSet_self body "token" (tokenJVal tok),
    lookup_assocSet_ne body "token" k (tokenJVal tok) hk, rfl, rfl, rfl⟩

/-- Witness for C3 at a concrete call: the `/log` POST with payload
`{age: 25}` and token `"tok"`, and the `/dashboard/series` GET with
`days=7`. -/
theorem credential_transport_asymmetry_witness :
    (apiClient.post "/log" [("age", .jnum 25)] (some "tok")
        (fun _ => ⟨true, some (.obj [])⟩)).1
      = [postRequest "/log" [("age", .jnum 25)] (some "tok")]
    ∧ (postRequest "/log" [("age", .jnum 25)] (some "tok")).query = []
    ∧ (postRequest "/log" [("age", .jnum 25)] (some "tok")).body
        = some (assocSet [("age", .jnum 25)] "token" (tokenJVal (some "tok")))
    ∧ JBody.lookup (assocSet [("age", .jnum 25)] "token" (tokenJVal (some "tok")))
        "token" = some (tokenJVal (some "tok"))
    ∧ JBody.lookup (assocSet [("age", .jnum 25)] "token" (tokenJVal (some "tok")))
        "age" = JBody.lookup [("age", .jnum 25)] "age"
    ∧ (apiClient.get "/dashboard/series" [("days", "7")] (some "tok")
        (fun _ => ⟨true, some (.obj [])⟩)).1
      = [getRequest "/dashboard/series" [("days", "7")] "tok"]
    ∧ (getRequest "/dashboard/series" [("days", "7")] "tok").query
        = ("token", "tok") :: [("days", "7")]
    ∧ (getRequest "/dashboard/series" [("days", "7")] "tok").body = none :=
  credential_transport_asymmetry "/log" "/dashboard/series" [("age", .jnum 25)]
    [("days", "7")] (some "tok") "tok" (fun _ => ⟨true, some (.obj [])⟩)
    "age" (by decide)

/-- C10: `apiClient.post` has no credential precondition — with no
session token it still issues its one request, carrying `token: null`
in the JSON body, and its outcome is exactly the handling of the
network's response (in particular never the missing-credential error,
which `handleResponse` cannot produce); `apiClient.get` by contrast
issues nothing and throws the missing-credential error. -/
theorem post_get_credential_asymmetry (endpoint : String)
    (body : List (String × JVal)) (params : List (String × String))
    (net : Request → HttpResponse) (m : String) :
    (apiClient.post endpoint body none net).1 = [postRequest endpoint body none]
    ∧ JBody.lookup (assocSet body "token" (tokenJVal none)) "token"
        = some JVal.jnull
    ∧ (apiClient.post endpoint body none net).2
        = handleResponse (net (postRequest endpoint body none))
    ∧ (apiClient.post endpoint body none net).2 ≠ .error (.authError m)
    ∧ (apiClient.get endpoint params none net).1 = []
    ∧ (apiClient.get endpoint params none net).2
        = .error (.authError "Authentication token not found.") := by
  refine ⟨rfl, lookup_assocSet_self body "token" (tokenJVal none), rfl, ?_, rfl, rfl⟩
  exact handleResponse_ne_authError (net (postRequest endpoint body none)) m

/-- C2 counterexample: against a non-2xx response whose body is not
parseable JSON, both `apiClient.post` and `apiClient.get` reject with
the propagated `response.json()` parse failure (there is no `try`
around the `await response.json()`), which is not the `ApiError` with
the fixed generic message the claim requires. -/
theorem non_success_unparseable_body_counterexample :
    (apiClient.post "/log" [] (some "tok") (fun _ => ⟨false, none⟩)).2
      = .error .parseError
    ∧ (apiClient.get "/dashboard/series" [("days", "7")] (some "tok")
        (fun _ => ⟨false, none⟩)).2 = .error .parseError
    ∧ (ClientError.parseError ≠ .apiError genericApiMessage) := by
  refine ⟨rfl, rfl, by decide⟩

/-- C2 as amended: on a non-2xx response whose body parses as a JSON
object, the thrown error message is the backend's `detail` string when
it is present and non-empty, and the fixed generic message when
`detail` is absent (or the empty string); but on a non-2xx response
with no parseable JSON body the parse failure propagates instead of
the generic message. Stated for both `apiClient.post` and
`apiClient.get`. -/
theorem non_success_detail_or_generic (epPost epGet : String)
    (body : List (String × JVal)) (params : List (String × String))
    (tok t : String) (net : Request → HttpResponse)
    (fields : List (String × JVal)) (s : String) :
    (((net (postRequest epPost body (some tok))).ok = false →
        ((net (postRequest epPost body (some tok))).jsonBody = some (.obj fields) →
          (JBody.lookup fields "detail" = some (.jstr s) → s ≠ "" →
            (apiClient.post epPost body (some tok) net).2 = .error (.apiError s))
          ∧ (JBody.lookup fields "detail" = none →
            (apiClient.post epPost body (some tok) net).2
              = .error (.apiError genericApiMessage))
          ∧ (JBody.lookup fields "detail" = some (.jstr "") →
            (apiClient.post epPost body (some tok) net).2
              = .error (.apiError genericApiMessage)))
        ∧ ((net (postRequest epPost body (some tok))).jsonBody = none →
            (apiClient.post epPost body (some tok) net).2 = .error .parseError)))
    ∧ (((net (getRequest epGet params t)).ok = false →
        ((net (getRequest epGet params t)).jsonBody = some (.obj fields) →
          (JBody.lookup fields "detail" = some (.jstr s) → s ≠ "" →
            (apiClient.get epGet params (some t) net).2 = .error (.apiError s))
          ∧ (JBody.lookup fields "detail" = none →
            (apiClient.get epGet params (some t) net).2
              = .error (.apiError genericApiMessage))
          ∧ (JBody.lookup fields "detail" = some (.jstr "") →
            (apiClient.get epGet params (some t) net).2
              = .error (.apiError genericApiMessage)))
        ∧ ((net (getRequest epGet params t)).jsonBody = none →
            (apiClient.get epGet params (some t) net).2 = .error .parseError))) := by
  constructor
  · intro hok
    constructor
    · intro hbody
      refine ⟨?_, ?_, ?_⟩
      · intro hd hs
        simp [apiClient.post, handleResponse, hbody, hok, errorOutcome, hd,
          JVal.truthy, hs, JVal.asMessage]
      · intro hd
        simp [apiClient.post, handleResponse, hbody, hok, errorOutcome, hd]
      · intro hd
        simp [apiClient.post, handleResponse, hbody, hok, errorOutcome, hd,
          JVal.truthy]
    · intro hbody
      simp [apiClient.post, handleResponse, hbody]
  · intro hok
    constructor
    · intro hbody
      refine ⟨?_, ?_, ?_⟩
      · intro hd hs
        simp [apiClient.get, handleResponse, hbody, hok, errorOutcome, hd,
          JVal.truthy, hs, JVal.asMessage]
      · intro hd
        simp [apiClient.get, handleResponse, hbody, hok, errorOutcome, hd]
      · intro hd
        simp [apiClient.get, handleResponse, hbody, hok, errorOutcome, hd,
          JVal.truthy]
    · intro hbody
      simp [apiClient.get, handleResponse, hbody]

/-- Witness for the amended C2: a non-2xx response carrying
`{"detail": "quota exceeded"}` makes `apiClient.post` reject with the
message `"quota exceeded"`. -/
theorem non_success_detail_or_generic_witness :
    (apiClient.post "/log" [] (some "tok")
        (fun _ => ⟨false, some (.obj [("detail", .jstr "quota exceeded")])⟩)).2
      = .error (.apiError "quota exceeded") :=
  (((non_success_detail_or_generic "/log" "/dashboard/series" [] [("days", "7")]
      "tok" "tok"
      (fun _ => ⟨false, some (.obj [("detail", .jstr "quota exceeded")])⟩)
      [("detail", .jstr "quota exceeded")] "quota exceeded").1
    rfl).1 rfl).1 (by simp [JBody.lookup, List.find?]) (by decide)

/-! ## Daily-log form validation (`sleepLogSchema` / `handleSubmit`)

`handleSubmit` coerces the form strings with `parseInt`/`parseFloat`
(producing `NaN` — here `none` — on empty or non-numeric input) and
hands the result to `sleepLogSchema.parse`. On a `ZodError` it writes
one message per field into the `errors` state and returns without any
API call; on success it posts the validated record to `/log`. -/

/-- The coerced record handed to `sleepLogSchema.parse`: numeric fields
are `Option ℚ` (`none` is JavaScript `NaN`), string fields are taken
verbatim from the form state. -/
structure ParsedInput where
  age : Option ℚ
  gender : String
  sleep_duration : Option ℚ
  stress_level : Option ℚ
  daily_steps : Option ℚ
  bmi_category : String
  blood_pressure : String
  heart_rate : Option ℚ
  physical_activity : Option ℚ
deriving DecidableEq, Repr

/-- The validated record returned by a successful
`sleepLogSchema.parse`: all nine fields present, numbers unwrapped. -/
structure HealthMetrics where
  age : ℚ
  gender : String
  sleep_duration : ℚ
  stress_level : ℚ
  daily_steps : ℚ
  bmi_category : String
  blood_pressure : String
  heart_rate : ℚ
  physical_activity : ℚ
deriving DecidableEq, Repr

/-- Issues of `z.number().min(lo).max(hi)` on one value: `NaN` fails
the number type check (aborting the range checks); otherwise each
range check that fails contributes its message, in check order.
With `lo ≤ hi` at most one of the two range checks can fail. -/
def numIssues (lo hi : ℚ) : Option ℚ → List String
  | none => ["Expected number, received nan"]
  | some q =>
    (if q < lo then ["Number must be greater than or equal to " ++ toString lo]
     else [])
      ++ (if hi < q then ["Number must be less than or equal to " ++ toString hi]
          else [])

/-- Issues of `z.number().min(lo)` (no `max`) on one value. -/
def numMinIssues (lo : ℚ) : Option ℚ → List String
  | none => ["Expected number, received nan"]
  | some q =>
    if q < lo then ["Number must be greater than or equal to " ++ toString lo]
    else []

/-- Issues of `z.string().min(1)` on one value. -/
def strMinIssues (s : String) : List String :=
  if s.length < 1 then ["String must contain at least 1 character(s)"] else []

/-- `z.number().min(lo).max(hi)` accepts exactly the non-`NaN` values
within `[lo, hi]`. -/
def inRange (lo hi : ℚ) : Option ℚ → Bool
  | none => false
  | some q => decide (lo ≤ q) && decide (q ≤ hi)

/-- `z.number().min(lo)` accepts exactly the non-`NaN` values `≥ lo`. -/
def atLeast (lo : ℚ) : Option ℚ → Bool
  | none => false
  | some q => decide (lo ≤ q)

/-- `z.string().min(1)` accepts exactly the non-empty strings. -/
def nonEmptyStr (s : String) : Bool := decide (1 ≤ s.length)

/-- The per-field issue lists of `sleepLogSchema` on a coerced input,
in schema key order. -/
def fieldIssueLists (i : ParsedInput) : List (String × List String) :=
  [("age", numIssues 1 120 i.age),
   ("gender", strMinIssues i.gender),
   ("sleep_duration", numIssues 0 24 i.sleep_duration),
   ("stress_level", numIssues 1 10 i.stress_level),
   ("daily_steps", numMinIssues 0 i.daily_steps),
   ("bmi_category", strMinIssues i.bmi_category),
   ("blood_pressure", strMinIssues i.blood_pressure),
   ("heart_rate", numIssues 30 220 i.heart_rate),
   ("physical_activity", numMinIssues 0 i.physical_activity)]

/-- Flattening per-field issue lists into the `ZodError.errors` array:
one `(path, message)` entry per issue, fields in schema order. -/
def issuesToErrors (L : List (String × List String)) : List (String × String) :=
  L.flatMap (fun fl => fl.2.map (fun m => (fl.1, m)))

/-- The `ZodError.errors` array of `sleepLogSchema.parse` on a coerced
input. -/
def fieldIssues (i : ParsedInput) : List (String × String) :=
  issuesToErrors (fieldIssueLists i)

/-- One step of `fieldErrors[err.path[0]] = err.message`: JavaScript
object assignment on the accumulated error map. -/
def assignError : List (String × String) → String × String → List (String × String)
  | [], kv => [kv]
  | (k', v') :: rest, kv =>
    if k' = kv.1 then (kv.1, kv.2) :: rest else (k', v') :: assignError rest kv

/-- The `fieldErrors` object built by `handleSubmit`'s catch branch:
`error.errors.forEach((err) => fieldErrors[err.path[0]] = err.message)`. -/
def fieldErrorsOf (issues : List (String × String)) : List (String × String) :=
  issues.foldl assignError []

/-- `sleepLogSchema.parse` on the coerced input: throws a `ZodError`
carrying all issues when any check fails, otherwise returns the record
with the very field values it was given (the `getD` defaults are dead:
an empty issue list forces every numeric field to be `some`). -/
def validate (i : ParsedInput) : Except (List (String × String)) HealthMetrics :=
  if fieldIssues i = [] then
    .ok { age := i.age.getD 0, gender := i.gender,
          sleep_duration := i.sleep_duration.getD 0,
          stress_level := i.stress_level.getD 0,
          daily_steps := i.daily_steps.getD 0,
          bmi_category := i.bmi_category,
          blood_pressure := i.blood_pressure,
          heart_rate := i.heart_rate.getD 0,
          physical_activity := i.physical_activity.getD 0 }
  else .error (fieldErrorsOf (fieldIssues i))

/-- The validated record serialized as the JSON payload of
`apiClient.post('/log', validatedData)`. -/
def HealthMetrics.json (d : HealthMetrics) : List (String × JVal) :=
  [("age", .jnum d.age), ("gender", .jstr d.gender),
   ("sleep_duration", .jnum d.sleep_duration),
   ("stress_level", .jnum d.stress_level),
   ("daily_steps", .jnum d.daily_steps),
   ("bmi_category", .jstr d.bmi_category),
   ("blood_pressure", .jstr d.blood_pressure),
   ("heart_rate", .jnum d.heart_rate),
   ("physical_activity", .jnum d.physical_activity)]

/-- The network requests issued by one `handleSubmit` run: none when
validation throws (the catch branch only sets `errors`), none when no
user is signed in (early return), otherwise exactly the
`apiClient.post('/log', validatedData)` call. -/
def handleSubmitRequests (i : ParsedInput) (user : Option String)
    (token : Option String) (net : Request → HttpResponse) : List Request :=
  match validate i with
  | .error _ => []
  | .ok data =>
    match user with
    | none => []
    | some _ => (apiClient.post "/log" data.json token net).1

/-- The `errors` state after one `handleSubmit` run (reset to `{}` at
entry, refilled only in the `ZodError` branch). -/
def handleSubmitErrors (i : ParsedInput) : List (String × String) :=
  match validate i with
  | .error errs => errs
  | .ok _ => []

/-- A `min`/`max`-checked number field has no issues exactly when its
value is a number in range. -/
theorem numIssues_eq_nil_iff (lo hi : ℚ) (v : Option ℚ) :
    numIssues lo hi v = [] ↔ inRange lo hi v = true := by
  cases v with
  | none => simp [numIssues, inRange]
  | some q =>
    by_cases h1 : q < lo <;> by_cases h2 : hi < q <;>
      simp [numIssues, inRange, h1, h2, not_lt.mp, le_of_lt]

/-- A `min`-checked number field has no issues exactly when its value
is a number `≥ lo`. -/
theorem numMinIssues_eq_nil_iff (lo : ℚ) (v : Option ℚ) :
    numMinIssues lo v = [] ↔ atLeast lo v = true := by
  cases v with
  | none => simp [numMinIssues, atLeast]
  | some q =>
    by_cases h : q < lo
    · simp_all [numMinIssues, atLeast, not_lt]
    · simp_all [numMinIssues, atLeast, not_lt]

/-- A `min(1)`-checked string field has no issues exactly when it is
non-empty. -/
theorem strMinIssues_eq_nil_iff (s : String) :
    strMinIssues s = [] ↔ nonEmptyStr s = true := by
  by_cases h : s.length < 1
  · simp_all [strMinIssues, nonEmptyStr, not_lt]
  · simp_all [strMinIssues, nonEmptyStr, not_lt]
    omega

/-- With coherent bounds, a `min`/`max` number field yields at most one
issue (the two range checks cannot both fail). -/
theorem numIssues_length_le_one (lo hi : ℚ) (h : lo ≤ hi) (v : Option ℚ) :
    (numIssues lo hi v).length ≤ 1 := by
  cases v with
  | none => simp [numIssues]
  | some q =>
    by_cases h1 : q < lo <;> by_cases h2 : hi < q <;> simp [numIssues, h1, h2]
    exact absurd h (not_le.mpr (lt_trans h2 h1))

/-- A `min`-only number field yields at most one issue. -/
theorem numMinIssues_length_le_one (lo : ℚ) (v : Option ℚ) :
    (numMinIssues lo v).length ≤ 1 := by
  cases v with
  | none => simp [numMinIssues]
  | some q => by_cases h : q < lo <;> simp [numMinIssues, h]

/-- A string field yields at most one issue. -/
theorem strMinIssues_length_le_one (s : String) :
    (strMinIssues s).length ≤ 1 := by
  by_cases h : s.length < 1 <;> simp [strMinIssues, h]

/-- A field name occurs among the flattened error keys exactly when
that field has a non-empty issue list. -/
theorem mem_issuesToErrors_keys (L : List (String × List String)) (f : String) :
    f ∈ (issuesToErrors L).map Prod.fst ↔ ∃ ms, (f, ms) ∈ L ∧ ms ≠ [] := by
  constructor
  · intro h
    obtain ⟨p, hp, hpf⟩ := List.mem_map.mp h
    simp only [issuesToErrors] at hp
    obtain ⟨fl, hfl, hpfl⟩ := List.mem_flatMap.mp hp
    obtain ⟨m, hm, rfl⟩ := List.mem_map.mp hpfl
    simp only at hpf
    subst hpf
    exact ⟨fl.2, by simpa using hfl, List.ne_nil_of_mem hm⟩
  · rintro ⟨ms, hmem, hne⟩
    obtain ⟨m, hm⟩ := List.exists_mem_of_ne_nil ms hne
    refine List.mem_map.mpr ⟨(f, m), ?_, rfl⟩
    simp only [issuesToErrors]
    exact List.mem_flatMap.mpr ⟨(f, ms), hmem, List.mem_map.mpr ⟨m, hm, rfl⟩⟩

/-- Flattened error keys are duplicate-free when field names are
distinct and every field carries at most one issue. -/
theorem issuesToErrors_keys_nodup (L : List (String × List String))
    (hnames : (L.map Prod.fst).Nodup)
    (hlen : ∀ fl ∈ L, fl.2.length ≤ 1) :
    ((issuesToErrors L).map Prod.fst).Nodup := by
  induction L with
  | nil => simp [issuesToErrors]
  | cons fl rest ih =>
    obtain ⟨f, ms⟩ := fl
    have hnames' : ((f, ms).1 :: rest.map Prod.fst).Nodup := by
      simpa only [List.map_cons] using hnames
    have hnc := List.nodup_cons.mp hnames'
    have hrest := ih hnc.2 (fun fl h => hlen fl (List.mem_cons_of_mem _ h))
    have hmslen : ms.length ≤ 1 := hlen (f, ms) (List.mem_cons_self _ _)
    match ms, hmslen with
    | [], _ =>
      have heq : issuesToErrors ((f, ([] : List String)) :: rest)
          = issuesToErrors rest := by simp [issuesToErrors]
      rw [heq]; exact hrest
    | [m], _ =>
      have heq : issuesToErrors ((f, [m]) :: rest)
          = (f, m) :: issuesToErrors rest := by simp [issuesToErrors]
      rw [heq, List.map_cons]
      refine List.nodup_cons.mpr ⟨?_, hrest⟩
      intro hmem
      obtain ⟨ms', hms', -⟩ := (mem_issuesToErrors_keys rest f).mp hmem
      exact hnc.1 (List.mem_map.mpr ⟨(f, ms'), hms', rfl⟩)

/-- Assignment at a fresh key appends the binding. -/
theorem assignError_fresh (l : List (String × String)) (kv : String × String)
    (h : kv.1 ∉ l.map Prod.fst) : assignError l kv = l ++ [kv] := by
  induction l with
  | nil => rfl
  | cons kv' rest ih =>
    obtain ⟨k', v'⟩ := kv'
    simp only [List.map_cons, List.mem_cons, not_or] at h
    simp only [assignError, if_neg (Ne.symm h.1), List.cons_append]
    rw [ih h.2]

/-- Folding JavaScript object assignments over bindings with
duplicate-free keys just appends them in order. -/
theorem foldl_assignError (issues acc : List (String × String))
    (h : ((acc ++ issues).map Prod.fst).Nodup) :
    issues.foldl assignError acc = acc ++ issues := by
  induction issues generalizing acc with
  | nil => simp
  | cons kv rest ih =>
    have hfresh : kv.1 ∉ acc.map Prod.fst := by
      intro hmem
      have hd := (List.nodup_append.mp (by simpa [List.map_append] using h)).2.2
      exact hd hmem (by simp)
    rw [List.foldl_cons, assignError_fresh acc kv hfresh]
    rw [ih (acc ++ [kv]) (by simpa [List.append_assoc] using h)]
    simp

/-- With duplicate-free keys, the `fieldErrors` object lists exactly
the issues, in order. -/
theorem fieldErrorsOf_eq_self (issues : List (String × String))
    (h : (issues.map Prod.fst).Nodup) : fieldErrorsOf issues = issues :=
  foldl_assignError issues [] (by simpa using h)

/-- The error keys of any `sleepLogSchema` failure are duplicate-free:
the nine field names are distinct and each field yields at most one
issue. -/
theorem fieldIssues_keys_nodup (i : ParsedInput) :
    ((fieldIssues i).map Prod.fst).Nodup := by
  refine issuesToErrors_keys_nodup _ (by simp [fieldIssueLists]) ?_
  intro fl hfl
  simp only [fieldIssueLists, List.mem_cons, List.not_mem_nil, or_false] at hfl
  rcases hfl with h | h | h | h | h | h | h | h | h <;> subst h <;>
    first
      | exact numIssues_length_le_one _ _ (by norm_num) _
      | exact numMinIssues_length_le_one _ _
      | exact strMinIssues_length_le_one _

/-- A `min`/`max` number field has an issue exactly when its value is
`NaN` or out of range. -/
theorem numIssues_ne_nil_iff (lo hi : ℚ) (v : Option ℚ) :
    numIssues lo hi v ≠ [] ↔ inRange lo hi v = false := by
  rw [Ne, numIssues_eq_nil_iff, Bool.not_eq_true]

/-- A `min`-only number field has an issue exactly when its value is
`NaN` or below the bound. -/
theorem numMinIssues_ne_nil_iff (lo : ℚ) (v : Option ℚ) :
    numMinIssues lo v ≠ [] ↔ atLeast lo v = false := by
  rw [Ne, numMinIssues_eq_nil_iff, Bool.not_eq_true]

/-- A string field has an issue exactly when it is empty. -/
theorem strMinIssues_ne_nil_iff (s : String) :
    strMinIssues s ≠ [] ↔ nonEmptyStr s = false := by
  rw [Ne, strMinIssues_eq_nil_iff, Bool.not_eq_true]

/-- C5: when validation fails, the `errors` state is a non-empty map
listing exactly one entry per offending field (its single failing
constraint's message), keyed precisely by the fields that fail their
schema checks, and `handleSubmit` issues no network request at all. -/
theorem invalid_input_errors_and_no_network (i : ParsedInput)
    (user token : Option String) (net : Request → HttpResponse)
    (errs : List (String × String)) (h : validate i = .error errs) :
    errs ≠ []
    ∧ errs = fieldIssues i
    ∧ (errs.map Prod.fst).Nodup
    ∧ ("age" ∈ errs.map Prod.fst ↔ inRange 1 120 i.age = false)
    ∧ ("gender" ∈ errs.map Prod.fst ↔ nonEmptyStr i.gender = false)
    ∧ ("sleep_duration" ∈ errs.map Prod.fst ↔ inRange 0 24 i.sleep_duration = false)
    ∧ ("stress_level" ∈ errs.map Prod.fst ↔ inRange 1 10 i.stress_level = false)
    ∧ ("daily_steps" ∈ errs.map Prod.fst ↔ atLeast 0 i.daily_steps = false)
    ∧ ("bmi_category" ∈ errs.map Prod.fst ↔ nonEmptyStr i.bmi_category = false)
    ∧ ("blood_pressure" ∈ errs.map Prod.fst ↔ nonEmptyStr i.blood_pressure = false)
    ∧ ("heart_rate" ∈ errs.map Prod.fst ↔ inRange 30 220 i.heart_rate = false)
    ∧ ("physical_activity" ∈ errs.map Prod.fst ↔ atLeast 0 i.physical_activity = false)
    ∧ handleSubmitRequests i user token net = [] := by
  by_cases hnil : fieldIssues i = []
  · exact absurd h (by simp [validate, hnil])
  · have h' : fieldErrorsOf (fieldIssues i) = errs := by
      simpa [validate, hnil] using h
    have herrs : errs = fieldIssues i := by
      rw [← h', fieldErrorsOf_eq_self _ (fieldIssues_keys_nodup i)]
    refine ⟨by rw [herrs]; exact hnil, herrs,
      by rw [herrs]; exact fieldIssues_keys_nodup i,
      ?_, ?_, ?_, ?_, ?_, ?_, ?_, ?_, ?_, by simp [handleSubmitRequests, h]⟩
    all_goals
      rw [herrs, fieldIssues, mem_issuesToErrors_keys]
      simp [fieldIssueLists, numIssues_ne_nil_iff, numMinIssues_ne_nil_iff,
        strMinIssues_ne_nil_iff]

/-- Witness for C5: a submission whose `age` field failed numeric
coercion (`NaN`) yields a non-empty error map and no network request. -/
theorem invalid_input_errors_and_no_network_witness :
    ([("age", "Expected number, received nan")] : List (String × String)) ≠ []
    ∧ handleSubmitRequests
        ⟨none, "Male", some 8, some 5, some 8000, "Normal", "120/80",
          some 72, some 30⟩ (some "user") (some "tok")
        (fun _ => ⟨true, some (.obj [])⟩) = [] := by
  have H := invalid_input_errors_and_no_network
    ⟨none, "Male", some 8, some 5, some 8000, "Normal", "120/80",
      some 72, some 30⟩ (some "user") (some "tok")
    (fun _ => ⟨true, some (.obj [])⟩)
    [("age", "Expected number, received nan")] (by rfl)
  exact ⟨H.1, H.2.2.2.2.2.2.2.2.2.2.2.2⟩

/-- C6: on an input whose fields are all present and within the
documented ranges, validation succeeds and returns exactly the field
values it was given — the identity on valid inputs. -/
theorem validate_identity_on_valid (a sd st ds hr pa : ℚ) (g bc bp : String)
    (ha1 : 1 ≤ a) (ha2 : a ≤ 120) (hg : 1 ≤ g.length)
    (hsd1 : 0 ≤ sd) (hsd2 : sd ≤ 24) (hst1 : 1 ≤ st) (hst2 : st ≤ 10)
    (hds : 0 ≤ ds) (hbc : 1 ≤ bc.length) (hbp : 1 ≤ bp.length)
    (hhr1 : 30 ≤ hr) (hhr2 : hr ≤ 220) (hpa : 0 ≤ pa) :
    validate ⟨some a, g, some sd, some st, some ds, bc, bp, some hr, some pa⟩
      = .ok ⟨a, g, sd, st, ds, bc, bp, hr, pa⟩ := by
  have hnil : fieldIssues
      ⟨some a, g, some sd, some st, some ds, bc, bp, some hr, some pa⟩ = [] := by
    simp [fieldIssues, issuesToErrors, fieldIssueLists, numIssues, numMinIssues,
      strMinIssues, not_lt.mpr ha1, not_lt.mpr ha2, not_lt.mpr hg,
      not_lt.mpr hsd1, not_lt.mpr hsd2, not_lt.mpr hst1, not_lt.mpr hst2,
      not_lt.mpr hds, not_lt.mpr hbc, not_lt.mpr hbp, not_lt.mpr hhr1,
      not_lt.mpr hhr2, not_lt.mpr hpa]
  simp [validate, hnil]

/-- Witness for C6 at a concrete in-range record. -/
theorem validate_identity_on_valid_witness :
    validate ⟨some 25, "Male", some 8, some 5, some 8000, "Normal", "120/80",
        some 72, some 30⟩
      = .ok ⟨25, "Male", 8, 5, 8000, "Normal", "120/80", 72, 30⟩ :=
  validate_identity_on_valid 25 8 5 8000 72 30 "Male" "Normal" "120/80"
    (by norm_num) (by norm_num) (by decide) (by norm_num) (by norm_num)
    (by norm_num) (by norm_num) (by norm_num) (by decide) (by decide)
    (by norm_num) (by norm_num) (by norm_num)

/-- The ambient state a `handleSubmit` run depends on besides the form
input: the signed-in user, the session token, the network. -/
structure Ambient where
  user : Option String
  token : Option String
  net : Request → HttpResponse

/-- The validation outcome of one `handleSubmit` run:
`sleepLogSchema.parse` receives only the coerced form data and runs
before any ambient state (session user, token, network) is consulted,
so the outcome is a function of the input record alone. -/
def submitValidationOutcome (_amb : Ambient) (i : ParsedInput) :
    Except (List (String × String)) HealthMetrics :=
  validate i

/-- C9: validation is pure and deterministic — two runs on the same
input record, in arbitrarily different ambient states, produce the
same outcome (same success record or same error mapping). -/
theorem validation_deterministic (amb₁ amb₂ : Ambient) (i : ParsedInput) :
    submitValidationOutcome amb₁ i = submitValidationOutcome amb₂ i := rfl

/-! ## Dashboard aggregation (`pages/Dashboard.tsx`, apiClient version)

`fetchDashboardData` issues the series and top-drivers GETs with
`Promise.all`, and only after both resolve writes `logs`, `averages`
and `topDrivers`; any rejection lands in the single catch, which shows
one toast and touches no state. -/

/-- The `averages` object of a `/dashboard/series` response. -/
structure Averages where
  sleep : ℚ
  quality : ℚ
  stress : ℚ
  steps : ℚ
deriving DecidableEq, Repr

/-- One log row of a `/dashboard/series` response (nullable metrics). -/
structure LogEntry where
  created_at : String
  sleep_duration : Option ℚ
  predicted_quality : Option ℚ
  stress_level : Option ℚ
  daily_steps : Option ℚ
deriving DecidableEq, Repr

/-- The `/dashboard/series` response shape. -/
structure SeriesData where
  logs : List LogEntry
  averages : Averages
deriving DecidableEq, Repr

/-- The `/dashboard/top-drivers` response shape; `driver_counts`
carries its entries in `Object.entries` order. -/
structure DriversData where
  latest_top_drivers : List String
  driver_counts : List (String × ℕ)
deriving DecidableEq, Repr

/-- The dashboard view state touched by `fetchDashboardData`. -/
structure DashState where
  logs : List LogEntry
  averages : Averages
  topDrivers : List (String × ℕ)
deriving DecidableEq, Repr

/-- The comparator `([, a], [, b]) => b - a` as the "keep `x` before
`y`" relation of a stable sort: `x` stays before `y` exactly when
`b - a ≤ 0`, i.e. `y`'s count is at most `x`'s. -/
def driverLE (x y : String × ℕ) : Bool := decide (y.2 ≤ x.2)

/-- `Object.entries(driver_counts).sort(([,a],[,b]) => b - a).slice(0, 5)`:
JavaScript's `Array.prototype.sort` is guaranteed stable, so it is
modelled by the stable `List.mergeSort` under the same comparator. -/
def formatDrivers (driver_counts : List (String × ℕ)) : List (String × ℕ) :=
  (driver_counts.mergeSort driverLE).take 5

/-- Modelled from the spec's words for comparison with `formatDrivers`:
"sort mapping entries by descending count, break ties by original
insertion order" — a stable insertion sort placing each entry before
the first later-inserted entry whose count is not larger. -/
def insertDesc (x : String × ℕ) : List (String × ℕ) → List (String × ℕ)
  | [] => [x]
  | y :: ys => if y.2 ≤ x.2 then x :: y :: ys else y :: insertDesc x ys

/-- Spec-side stable descending sort by count (see `insertDesc`). -/
def stableSortDesc : List (String × ℕ) → List (String × ℕ)
  | [] => []
  | x :: xs => insertDesc x (stableSortDesc xs)

/-- `Promise.all` of the two already-settled fetches: both fulfilled
gives the pair, otherwise the rejection that settles first wins
(`seriesFirst` records which rejection is earlier when both fail). -/
def promiseAll2 {α β : Type} (a : Except String α) (b : Except String β)
    (seriesFirst : Bool) : Except String (α × β) :=
  match a, b with
  | .ok x, .ok y => .ok (x, y)
  | .error e, .ok _ => .error e
  | .ok _, .error e => .error e
  | .error e₁, .error e₂ => .error (if seriesFirst then e₁ else e₂)

/-- One `fetchDashboardData` run over the settled outcomes of the two
concurrent `apiClient.get` calls (rejections already coerced to their
`error.message` strings by the catch): on joint success it overwrites
`logs`, `averages` and `topDrivers`; on any failure it shows exactly
one toast description and leaves the state untouched. -/
def fetchDashboardData (st : DashState) (series : Except String SeriesData)
    (drivers : Except String DriversData) (seriesFirst : Bool) :
    DashState × List String :=
  match promiseAll2 series drivers seriesFirst with
  | .ok (s, d) =>
    ({ logs := s.logs, averages := s.averages,
       topDrivers := formatDrivers d.driver_counts }, [])
  | .error e => (st, [e])

/-- The legacy client-side averaging of the Supabase version of
`Dashboard.tsx` (also present in the source), used only as a contrast
for C8: it sums each metric with `|| 0` defaults and, when any log
exists, divides and rounds (`Math.round q = ⌊q + 1/2⌋`). -/
def computeAverages (logs : List LogEntry) : Averages :=
  let n : ℚ := (logs.length : ℚ)
  let sleepSum := (logs.map (fun l => l.sleep_duration.getD 0)).sum
  let qualitySum := (logs.map (fun l => l.predicted_quality.getD 0)).sum
  let stressSum := (logs.map (fun l => l.stress_level.getD 0)).sum
  let stepsSum := (logs.map (fun l => l.daily_steps.getD 0)).sum
  if logs.length = 0 then
    { sleep := sleepSum, quality := qualitySum,
      stress := stressSum, steps := stepsSum }
  else
    { sleep := (round (sleepSum / n * 10) : ℤ) / 10,
      quality := (round (qualitySum / n * 10) : ℤ) / 10,
      stress := (round (stressSum / n) : ℤ),
      steps := (round (stepsSum / n) : ℤ) }

/-- The driver comparator is transitive. -/
theorem driverLE_trans (a b c : String × ℕ) :
    driverLE a b → driverLE b c → driverLE a c := by
  simp only [driverLE, decide_eq_true_eq]
  exact fun h₁ h₂ => le_trans h₂ h₁

/-- The driver comparator is total. -/
theorem driverLE_total (a b : String × ℕ) : driverLE a b || driverLE b a := by
  simp only [driverLE]
  rcases Nat.le_total b.2 a.2 with h | h <;> simp [h]

/-- Inserting below the strictly-greater prefix and above the
not-greater suffix. -/
theorem insertDesc_append (a : String × ℕ) (l₁ l₂ : List (String × ℕ))
    (h₁ : ∀ b ∈ l₁, ¬(b.2 ≤ a.2)) (h₂ : ∀ b ∈ l₂, b.2 ≤ a.2) :
    insertDesc a (l₁ ++ l₂) = l₁ ++ a :: l₂ := by
  induction l₁ with
  | nil =>
    cases l₂ with
    | nil => rfl
    | cons y ys => simp [insertDesc, h₂ y (by simp)]
  | cons y ys ih =>
    have hy := h₁ y (by simp)
    simp only [List.cons_append, insertDesc, if_neg hy]
    exact congrArg (List.cons y) (ih (fun b hb => h₁ b (by simp [hb])))

/-- The stable `mergeSort` under the JavaScript comparator computes
exactly the spec's stable descending insertion sort. -/
theorem mergeSort_driverLE_eq_stableSortDesc (l : List (String × ℕ)) :
    l.mergeSort driverLE = stableSortDesc l := by
  induction l with
  | nil => simp [stableSortDesc]
  | cons a l ih =>
    obtain ⟨l₁, l₂, h₁, h₂, h₃⟩ :=
      List.mergeSort_cons driverLE_trans driverLE_total a l
    have hs := List.sorted_mergeSort driverLE_trans driverLE_total (a :: l)
    rw [h₁] at hs
    have hs' : List.Pairwise (fun x y => driverLE x y = true) (a :: l₂) :=
      hs.sublist (List.sublist_append_right l₁ (a :: l₂))
    rw [h₁]
    show l₁ ++ a :: l₂ = insertDesc a (stableSortDesc l)
    rw [← ih, h₂]
    refine (insertDesc_append a l₁ l₂ ?_ ?_).symm
    · intro b hb
      have := h₃ b hb
      simpa [driverLE] using this
    · intro b hb
      have := List.rel_of_pairwise_cons hs' hb
      simpa [driverLE] using this

/-- C4: the dashboard's formatted top-drivers list is exactly the
driver-count entries stably sorted by descending count (ties keeping
original entry order) and truncated to the first five; the sorted list
is a permutation of the entries, pairwise descending in count; and on
`{A:3, B:5, C:5, D:1}` the top-2 prefix is `[B:5, C:5]`, not
`[C:5, B:5]`. -/
theorem topDrivers_stable_sorted_take5 (l : List (String × ℕ)) :
    formatDrivers l = (stableSortDesc l).take 5
    ∧ (stableSortDesc l).Perm l
    ∧ List.Pairwise (fun x y => (y.2 : ℕ) ≤ x.2) (formatDrivers l)
    ∧ (formatDrivers [("A", 3), ("B", 5), ("C", 5), ("D", 1)]).take 2
        = [("B", 5), ("C", 5)] := by
  refine ⟨?_, ?_, ?_, ?_⟩
  · rw [formatDrivers, mergeSort_driverLE_eq_stableSortDesc]
  · rw [← mergeSort_driverLE_eq_stableSortDesc]
    exact List.mergeSort_perm l driverLE
  · refine List.Pairwise.sublist (List.take_sublist 5 _) ?_
    have := List.sorted_mergeSort driverLE_trans driverLE_total l
    exact this.imp (fun h => by simpa [driverLE] using h)
  · rw [formatDrivers, mergeSort_driverLE_eq_stableSortDesc]
    rfl

/-- C7: if either of the two concurrent dashboard fetches fails, the
run leaves `logs`, `averages` and `topDrivers` exactly as they were
and surfaces exactly one error toast — regardless of which fetch
failed or which rejection settled first (so partial failure is
indistinguishable from total failure). -/
theorem fetch_failure_no_partial_update (st : DashState)
    (series : Except String SeriesData) (drivers : Except String DriversData)
    (seriesFirst : Bool)
    (h : series.isOk = false ∨ drivers.isOk = false) :
    (fetchDashboardData st series drivers seriesFirst).1 = st
    ∧ (fetchDashboardData st series drivers seriesFirst).2.length = 1 := by
  cases series with
  | error e =>
    cases drivers with
    | error e' => simp [fetchDashboardData, promiseAll2]
    | ok d => simp [fetchDashboardData, promiseAll2]
  | ok s =>
    cases drivers with
    | error e' => simp [fetchDashboardData, promiseAll2]
    | ok d => simp [Except.isOk, Except.toBool] at h

/-- Witness for C7: a failed series fetch next to a successful drivers
fetch keeps the previous state and shows a single toast. -/
theorem fetch_failure_no_partial_update_witness :
    (fetchDashboardData ⟨[], ⟨7, 8, 3, 9000⟩, [("stress", 2)]⟩
        (.error "API request failed") (.ok ⟨[], []⟩) true).1
      = ⟨[], ⟨7, 8, 3, 9000⟩, [("stress", 2)]⟩
    ∧ (fetchDashboardData ⟨[], ⟨7, 8, 3, 9000⟩, [("stress", 2)]⟩
        (.error "API request failed") (.ok ⟨[], []⟩) true).2.length = 1 :=
  fetch_failure_no_partial_update ⟨[], ⟨7, 8, 3, 9000⟩, [("stress", 2)]⟩
    (.error "API request failed") (.ok ⟨[], []⟩) true (Or.inl rfl)

/-- C8: on a successful refresh the dashboard's averages are the
`averages` object of the series response itself, passed through
unmodified for every response value — including one (empty `logs`,
non-zero averages) where the legacy client-side recomputation still
present in the source would disagree, showing no recomputation
happens. -/
theorem averages_passed_through (st : DashState) (s : SeriesData)
    (d : DriversData) (seriesFirst : Bool) :
    (fetchDashboardData st (.ok s) (.ok d) seriesFirst).1.averages = s.averages
    ∧ (fetchDashboardData st (.ok s) (.ok d) seriesFirst).1.logs = s.logs
    ∧ (fetchDashboardData st (.ok ⟨[], ⟨1, 2, 3, 4⟩⟩) (.ok d)
        seriesFirst).1.averages = ⟨1, 2, 3, 4⟩
    ∧ computeAverages ([] : List LogEntry) ≠ ⟨1, 2, 3, 4⟩ := by
  refine ⟨rfl, rfl, rfl, ?_⟩
  simp [computeAverages]

end SleepWise
